import Mathlib

/-!
Verification development for the Mask-up face-filter overlay.

The definitions below are a shallow embedding of the geometric core in
`src/components/Filter3DOverlay.tsx` (the functions `mapFaceTo3D`,
`getFilterPosition` and the per-frame `animate` loop), of the calibration
reset in `src/components/FilterCalibration.tsx`, and of the detection
filtering in the face-detection hook (`detectFaces`).  JavaScript numbers
are modelled by real numbers; `Math.atan2` is modelled by `Complex.arg`,
which agrees with the JavaScript convention at every argument pair that
matters below (including `atan2 0 0 = 0`).
-/

open Real

/-- A 2D landmark point in source-video pixel space. -/
structure Pt where
  x : ℝ
  y : ℝ

/-- A 3D vector (position or Euler rotation triple). -/
structure Vec3 where
  x : ℝ
  y : ℝ
  z : ℝ

/-- The 68-point landmark set of one detection (`faceapi.FaceLandmarks68.positions`). -/
def Landmarks : Type := Fin 68 → Pt

/-- JavaScript Math.atan2: `atan2 y x` is modelled as the argument of the complex number `x + y*i`.
`Complex.arg` matches the JavaScript convention: `atan2 0 0 = 0`,
`atan2 0 x = π` for `x < 0`, `atan2 y 0 = ±π/2` for `y ≷ 0`. -/
noncomputable def atan2 (y x : ℝ) : ℝ := Complex.arg ⟨x, y⟩

/-- The point `landmarks.getLeftEye()[0]`: face-api slices positions 36–41 for the left eye. -/
def getLeftEyeOuter (lm : Landmarks) : Pt := lm 36

/-- The point `landmarks.getRightEye()[3]`: face-api slices positions 42–47 for the right eye. -/
def getRightEyeOuter (lm : Landmarks) : Pt := lm 45

/-- The point `landmarks.getNose()[3]`: face-api slices positions 27–35 for the nose. -/
def getNoseTip (lm : Landmarks) : Pt := lm 30

/-- The point `landmarks.getNose()[0]`. -/
def getNoseTop (lm : Landmarks) : Pt := lm 27

/-- The point `landmarks.getJawOutline()[8]`: face-api slices positions 0–16 for the jaw. -/
def getChin (lm : Landmarks) : Pt := lm 8

/-- The point `positions[24]` (used as the forehead point). -/
def getForehead (lm : Landmarks) : Pt := lm 24

/-- The point `landmarks.getJawOutline()[0]`. -/
def getLeftJaw (lm : Landmarks) : Pt := lm 0

/-- The point `landmarks.getJawOutline()[16]`. -/
def getRightJaw (lm : Landmarks) : Pt := lm 16

/-- The quantity `const faceWidth = Math.abs(rightEye.x - leftEye.x)` in `mapFaceTo3D`. -/
def faceWidth (lm : Landmarks) : ℝ :=
  |(getRightEyeOuter lm).x - (getLeftEyeOuter lm).x|

/-- The quantity `const faceHeight = Math.abs(chin.y - forehead.y)` in `mapFaceTo3D`. -/
def faceHeight (lm : Landmarks) : ℝ :=
  |(getChin lm).y - (getForehead lm).y|

/-- The quantity `const jawWidth = Math.abs(rightJaw.x - leftJaw.x)` in `mapFaceTo3D`. -/
def jawWidth (lm : Landmarks) : ℝ :=
  |(getRightJaw lm).x - (getLeftJaw lm).x|

/-- The quantity `const eyeCenter = (leftEye.x + rightEye.x) / 2` in `mapFaceTo3D`. -/
noncomputable def eyeCenterX (lm : Landmarks) : ℝ :=
  ((getLeftEyeOuter lm).x + (getRightEyeOuter lm).x) / 2

/-- The quantity `const jawCenter = (leftJaw.x + rightJaw.x) / 2` in `mapFaceTo3D`. -/
noncomputable def jawCenterX (lm : Landmarks) : ℝ :=
  ((getLeftJaw lm).x + (getRightJaw lm).x) / 2

/-- The quantity `const faceAsymmetry = (eyeCenter - faceCenter) / faceWidth` in `mapFaceTo3D`
(with `faceCenter = noseTip.x`). -/
noncomputable def faceAsymmetry (lm : Landmarks) : ℝ :=
  (eyeCenterX lm - (getNoseTip lm).x) / faceWidth lm

/-- The quantity `const jawAsymmetry = (jawCenter - faceCenter) / jawWidth` in `mapFaceTo3D`. -/
noncomputable def jawAsymmetry (lm : Landmarks) : ℝ :=
  (jawCenterX lm - (getNoseTip lm).x) / jawWidth lm

/-- The quantity `const avgAsymmetry = (faceAsymmetry + jawAsymmetry) / 2` in `mapFaceTo3D`. -/
noncomputable def avgAsymmetry (lm : Landmarks) : ℝ :=
  (faceAsymmetry lm + jawAsymmetry lm) / 2

/-- The value `Math.atan2(rightEye.y - leftEye.y, rightEye.x - leftEye.x)`:
the roll angle of `mapFaceTo3D` before the mirroring sign flip. -/
noncomputable def rollAngleBase (lm : Landmarks) : ℝ :=
  atan2 ((getRightEyeOuter lm).y - (getLeftEyeOuter lm).y)
    ((getRightEyeOuter lm).x - (getLeftEyeOuter lm).x)

/-- The value `let yawAngle = avgAsymmetry * Math.PI * 0.3`: the yaw angle of
`mapFaceTo3D` before the mirroring sign flip. -/
noncomputable def yawAngleBase (lm : Landmarks) : ℝ :=
  avgAsymmetry lm * Real.pi * 0.3

/-- The pitch angle of `mapFaceTo3D`:
`pitchFactor * Math.PI * 0.2` where
`pitchFactor = (noseOffsetY - faceHeight * 0.3) / faceHeight` and
`noseOffsetY = noseTip.y - (leftEye.y + rightEye.y) / 2`. -/
noncomputable def pitchAngle (lm : Landmarks) : ℝ :=
  ((getNoseTip lm).y - ((getLeftEyeOuter lm).y + (getRightEyeOuter lm).y) / 2 -
      faceHeight lm * 0.3) / faceHeight lm * Real.pi * 0.2

/-- The record returned by `mapFaceTo3D`: pose centre, scale, rotation, the key
landmark points and derived dimensions it exposes, plus the viewport data. -/
structure FaceData where
  center : Vec3
  scale : ℝ
  rotation : Vec3
  leftEye : Pt
  rightEye : Pt
  noseTip : Pt
  noseTop : Pt
  chin : Pt
  forehead : Pt
  leftJaw : Pt
  rightJaw : Pt
  faceWidth : ℝ
  faceHeight : ℝ
  jawWidth : ℝ
  isVideoMirrored : Bool
  videoWidth : ℝ
  videoHeight : ℝ

/-- Embedding of `mapFaceTo3D` in `Filter3DOverlay.tsx`.
`videoWidth`/`videoHeight` are the source-video dimensions the code reads as
`dimensions.videoWidth || dimensions.width` (the caller supplies the value
after that fallback); `mir` is `isVideoMirroredState`. -/
noncomputable def mapFaceTo3D (lm : Landmarks) (mir : Bool)
    (videoWidth videoHeight : ℝ) : FaceData :=
  ⟨⟨(getNoseTip lm).x / videoWidth * 2 - 1,
    -((getNoseTip lm).y / videoHeight * 2 - 1), 0⟩,
   faceWidth lm / 200,
   ⟨pitchAngle lm,
    if mir then -yawAngleBase lm else yawAngleBase lm,
    if mir then -rollAngleBase lm else rollAngleBase lm⟩,
   getLeftEyeOuter lm, getRightEyeOuter lm, getNoseTip lm, getNoseTop lm,
   getChin lm, getForehead lm, getLeftJaw lm, getRightJaw lm,
   faceWidth lm, faceHeight lm, jawWidth lm, mir, videoWidth, videoHeight⟩

/-- The value returned by `getFilterPosition`: a base accessory transform. -/
structure FilterTransform where
  x : ℝ
  y : ℝ
  z : ℝ
  scale : ℝ
  rotation : Vec3

/-- Embedding of `getFilterPosition` in `Filter3DOverlay.tsx` (the switch on
the filter id, with the fall-through default case). -/
noncomputable def getFilterPosition (filterId : String) (fd : FaceData) :
    FilterTransform :=
  if filterId = "glasses" then
    ⟨(fd.leftEye.x + fd.rightEye.x) / 2 / fd.videoWidth * 2 - 1,
     -((fd.leftEye.y + fd.rightEye.y) / 2 / fd.videoHeight * 2 - 1),
     0.01, fd.scale * 0.8, fd.rotation⟩
  else if filterId = "hat" then
    ⟨fd.center.x,
     -((fd.forehead.y - fd.faceHeight * 0.6) / fd.videoHeight * 2 - 1),
     -0.02, fd.scale * 1.2, fd.rotation⟩
  else if filterId = "beard" then
    ⟨fd.center.x,
     -((fd.chin.y + fd.faceHeight * 0.05) / fd.videoHeight * 2 - 1),
     0.01, fd.scale * 1.0, fd.rotation⟩
  else if filterId = "mustache" then
    ⟨fd.center.x,
     -((fd.noseTip.y + fd.faceHeight * 0.2) / fd.videoHeight * 2 - 1),
     0.02, fd.scale * 0.6, fd.rotation⟩
  else
    ⟨fd.center.x, fd.center.y, fd.center.z, fd.scale, fd.rotation⟩

/-- A per-accessory calibration adjustment (the record produced by the
calibration sliders in `FilterCalibration.tsx`). -/
structure Adjustment where
  x : ℝ
  y : ℝ
  z : ℝ
  scale : ℝ
  rotX : ℝ
  rotY : ℝ
  rotZ : ℝ

/-- JavaScript's `a || d` applied to a number `a`: `0` is falsy, so the
default is taken exactly when `a = 0` (the model has no `NaN`). -/
noncomputable def orDefault (a d : ℝ) : ℝ := if a = 0 then d else a

/-- Embedding of the `finalPosition` computation in the `animate` loop of
`Filter3DOverlay.tsx`: `x + (adj.x || 0)`, `scale * (adj.scale || 1)`,
`(rot.c || 0) + (adj.rotC || 0)` component-wise. -/
noncomputable def applyAdjustments (fp : FilterTransform) (adj : Adjustment) :
    FilterTransform :=
  ⟨fp.x + orDefault adj.x 0,
   fp.y + orDefault adj.y 0,
   fp.z + orDefault adj.z 0,
   fp.scale * orDefault adj.scale 1,
   ⟨orDefault fp.rotation.x 0 + orDefault adj.rotX 0,
    orDefault fp.rotation.y 0 + orDefault adj.rotY 0,
    orDefault fp.rotation.z 0 + orDefault adj.rotZ 0⟩⟩

/-- The adjustment installed by `resetFilter` in `FilterCalibration.tsx`:
`{ x: 0, y: 0, z: 0, scale: 1, rotX: 0, rotY: 0, rotZ: 0 }`. -/
def resetAdjustment : Adjustment := ⟨0, 0, 0, 1, 0, 0, 0⟩

/-- Builds a landmark set from the eight points `mapFaceTo3D` reads
(left-eye outer 36, right-eye outer 45, nose tip 30, nose top 27, chin 8,
forehead 24, left jaw 0, right jaw 16); all other indices are the origin. -/
def mkLandmarks (le re nt ntop ch fh lj rj : Pt) : Landmarks := fun i =>
  if i = 36 then le else if i = 45 then re else if i = 30 then nt
  else if i = 27 then ntop else if i = 8 then ch else if i = 24 then fh
  else if i = 0 then lj else if i = 16 then rj else ⟨0, 0⟩

/-- The synthetic landmark set of the concrete scenario in §8 of the spec:
eye-outer points at (100,150) and (200,150), nose tip (150,160). -/
def lmLevelEyes : Landmarks :=
  mkLandmarks ⟨100, 150⟩ ⟨200, 150⟩ ⟨150, 160⟩ ⟨150, 120⟩ ⟨150, 300⟩
    ⟨150, 100⟩ ⟨80, 180⟩ ⟨240, 180⟩

/-- The landmark set used to refute C2: the two eye-outer points share the
x-coordinate 100 but have different y-coordinates. -/
def lmEyesStacked : Landmarks :=
  mkLandmarks ⟨100, 100⟩ ⟨100, 200⟩ ⟨90, 150⟩ ⟨100, 80⟩ ⟨100, 300⟩
    ⟨100, 50⟩ ⟨60, 180⟩ ⟨140, 180⟩

/-- The horizontal mirror image of a landmark set: every x becomes
`W - x` (W is the source width); y is unchanged. -/
def mirrorLandmarks (W : ℝ) (lm : Landmarks) : Landmarks := fun i =>
  ⟨W - (lm i).x, (lm i).y⟩

/-- The amended mirroring property of `mapFaceTo3D`: under a horizontal
mirror of the landmark set with `isMirrored` toggled, `centerNormalized.x`
negates and `scale` and pitch are unchanged, but yaw is also unchanged (the
code's sign flip cancels the geometric inversion) and roll changes by an
integer multiple of π rather than negating. -/
def MirrorSymmetryHolds (lm : Landmarks) (W H : ℝ) : Prop :=
  (mapFaceTo3D (mirrorLandmarks W lm) true W H).center.x
      = -(mapFaceTo3D lm false W H).center.x ∧
    (mapFaceTo3D (mirrorLandmarks W lm) true W H).scale
      = (mapFaceTo3D lm false W H).scale ∧
    (mapFaceTo3D (mirrorLandmarks W lm) true W H).rotation.x
      = (mapFaceTo3D lm false W H).rotation.x ∧
    (mapFaceTo3D (mirrorLandmarks W lm) true W H).rotation.y
      = (mapFaceTo3D lm false W H).rotation.y ∧
    ∃ k : ℤ, (mapFaceTo3D (mirrorLandmarks W lm) true W H).rotation.z
      = (mapFaceTo3D lm false W H).rotation.z + k * Real.pi

/-- The landmark set used to refute C1: its yaw estimate is strictly
positive, so mirroring (which leaves yaw unchanged) cannot negate it. -/
def lmYawed : Landmarks :=
  mkLandmarks ⟨100, 150⟩ ⟨200, 150⟩ ⟨140, 200⟩ ⟨140, 120⟩ ⟨150, 300⟩
    ⟨150, 100⟩ ⟨80, 180⟩ ⟨240, 180⟩

/-- The landmark set used to refute C9: inter-eye distance 10 and jaw width
200 are both nonzero, but the nose tip sits far from the eye centre, making
`faceAsymmetry = 10.5` and the yaw estimate `1.65π`, far beyond `0.3π`. -/
def lmWideAsym : Landmarks :=
  mkLandmarks ⟨100, 150⟩ ⟨110, 150⟩ ⟨0, 200⟩ ⟨0, 120⟩ ⟨100, 300⟩
    ⟨100, 100⟩ ⟨0, 180⟩ ⟨200, 180⟩

/-- One face detection as consumed by the render loop and the hook:
a confidence score and the 68 landmark points. -/
structure Detection where
  score : ℝ
  landmarks : Landmarks

/-- The mutable state of one accessory mesh group (`THREE.Group`):
transform plus the `visible` flag. -/
structure GroupState where
  position : Vec3
  rotation : Vec3
  scaleFactor : ℝ
  visible : Bool

/-- The body of the per-filter block in the `animate` loop: compute the face
data, the base transform, composite the calibration adjustment, apply the
transform, set `visible = true`, and add the cosmetic hat bob
(`Math.sin(time) * 0.02` on y, `t` being `Date.now() * 0.001`). -/
noncomputable def positionFilterGroup (filterId : String) (d : Detection)
    (adj : String → Adjustment) (mir : Bool) (vw vh t : ℝ) : GroupState :=
  let fp := applyAdjustments
    (getFilterPosition filterId (mapFaceTo3D d.landmarks mir vw vh))
    (adj filterId)
  ⟨⟨fp.x, fp.y + (if filterId = "hat" then Real.sin t * 0.02 else 0), fp.z⟩,
   fp.rotation, fp.scale, true⟩

/-- Processing of one detection inside the `animate` loop:
`if (detection.detection.score < 0.7) return;` and otherwise every selected
filter whose group exists is positioned and made visible. -/
noncomputable def tickStep (sel : List String) (adj : String → Adjustment)
    (mir : Bool) (vw vh t : ℝ) (st : List (String × GroupState))
    (d : Detection) : List (String × GroupState) :=
  if d.score < 0.7 then st
  else
    st.map fun p =>
      if p.1 ∈ sel then (p.1, positionFilterGroup p.1 d adj mir vw vh t) else p

/-- The assignment `filterGroup.visible = false` (the hide-all prologue of `animate`). -/
def hideGroup (g : GroupState) : GroupState :=
  ⟨g.position, g.rotation, g.scaleFactor, false⟩

/-- One tick of the `animate` render loop: hide every filter group, then
process the detection list in order. -/
noncomputable def animateTick (sel : List String) (adj : String → Adjustment)
    (dets : List Detection) (mir : Bool) (vw vh t : ℝ)
    (groups : List (String × GroupState)) : List (String × GroupState) :=
  dets.foldl (tickStep sel adj mir vw vh t)
    (groups.map fun p => (p.1, hideGroup p.2))

/-- A concrete mesh-group state used in witnesses. -/
def gGlasses : GroupState := ⟨⟨0, 0, 0⟩, ⟨0, 0, 0⟩, 1, true⟩

/-- A concrete detection whose score 1/2 is below the 0.7 threshold. -/
noncomputable def dLowScore : Detection := ⟨1 / 2, lmLevelEyes⟩

/-- The four filter ids with a geometry factory in the `switch` of the
filter-management effect (`createGlasses` … `createMustache`); any other id
hits the `default: return` branch and is never added. -/
def accessoryKinds : List String := ["glasses", "hat", "beard", "mustache"]

/-- The add half of the filter-management effect for one selected filter:
skip if a group for the id already exists, create and register the group if
the id has a factory, and silently skip unknown ids. -/
def addFilterKey (acc : List String) (fid : String) : List String :=
  if fid ∈ acc then acc
  else if fid ∈ accessoryKinds then acc ++ [fid] else acc

/-- Embedding of the filter-management `useEffect` in `Filter3DOverlay.tsx`,
tracking the key set of `filtersRef` (whose groups are exactly the accessory
meshes mounted in the scene — removal deletes from both the scene and the
map in the same branch): first every group whose id is no longer selected is
removed, then a group is created for every selected id that lacks one. -/
def syncFilters (selected cur : List String) : List String :=
  selected.foldl addFilterKey (cur.filter fun fid => decide (fid ∈ selected))

/-- The constant `MIN_DETECTION_CONFIDENCE` in `src/constants.ts`. -/
noncomputable def MIN_DETECTION_CONFIDENCE : ℝ := 0.7

/-- The constant `MAX_FACES` in `src/constants.ts`. -/
def MAX_FACES : ℕ := 1

/-- The `validDetections` computation in `detectFaces` of the face-detection
hook: `detections.filter(d => d.detection.score > MIN_DETECTION_CONFIDENCE)
.slice(0, MAX_FACES)` — the list stored in the hook state and passed to
`onDetectionComplete`. -/
noncomputable def validDetections (dets : List Detection) : List Detection :=
  (dets.filter fun d => decide (MIN_DETECTION_CONFIDENCE < d.score)).take
    MAX_FACES

/-- A concrete detection whose score 9/10 clears the 0.7 threshold. -/
noncomputable def dHigh : Detection := ⟨9 / 10, lmLevelEyes⟩

@[simp] theorem getLeftEyeOuter_mk (le re nt ntop ch fh lj rj : Pt) :
    getLeftEyeOuter (mkLandmarks le re nt ntop ch fh lj rj) = le := rfl

@[simp] theorem getRightEyeOuter_mk (le re nt ntop ch fh lj rj : Pt) :
    getRightEyeOuter (mkLandmarks le re nt ntop ch fh lj rj) = re := rfl

@[simp] theorem getNoseTip_mk (le re nt ntop ch fh lj rj : Pt) :
    getNoseTip (mkLandmarks le re nt ntop ch fh lj rj) = nt := rfl

@[simp] theorem getNoseTop_mk (le re nt ntop ch fh lj rj : Pt) :
    getNoseTop (mkLandmarks le re nt ntop ch fh lj rj) = ntop := rfl

@[simp] theorem getChin_mk (le re nt ntop ch fh lj rj : Pt) :
    getChin (mkLandmarks le re nt ntop ch fh lj rj) = ch := rfl

@[simp] theorem getForehead_mk (le re nt ntop ch fh lj rj : Pt) :
    getForehead (mkLandmarks le re nt ntop ch fh lj rj) = fh := rfl

@[simp] theorem getLeftJaw_mk (le re nt ntop ch fh lj rj : Pt) :
    getLeftJaw (mkLandmarks le re nt ntop ch fh lj rj) = lj := rfl

@[simp] theorem getRightJaw_mk (le re nt ntop ch fh lj rj : Pt) :
    getRightJaw (mkLandmarks le re nt ntop ch fh lj rj) = rj := rfl

theorem orDefault_zero (a : ℝ) : orDefault a 0 = a := by
  unfold orDefault
  split <;> simp_all

theorem applyAdjustments_reset (fp : FilterTransform) :
    applyAdjustments fp resetAdjustment = fp := by
  obtain ⟨x, y, z, s, ⟨rx, ry, rz⟩⟩ := fp
  simp [applyAdjustments, resetAdjustment, orDefault_zero, orDefault]
  exact ⟨fun h => h.symm, fun h => h.symm, fun h => h.symm⟩

/-- C4: composing any base transform produced by `getFilterPosition` with the
identity adjustment installed by `resetFilter` returns the base transform
exactly (position, scale and rotation unchanged). -/
theorem calibration_reset_round_trip (filterId : String) (fd : FaceData) :
    applyAdjustments (getFilterPosition filterId fd) resetAdjustment =
      getFilterPosition filterId fd :=
  applyAdjustments_reset _

/-- C5: a calibration adjustment whose scale is 0 is treated as falsy by the
JavaScript `||` idiom, so the composed scale equals the (positive) base scale
and stays positive — a zero calibration scale is never multiplied in. -/
theorem zero_calibration_scale_clamped (fp : FilterTransform)
    (adj : Adjustment) (hpos : 0 < fp.scale) (hz : adj.scale = 0) :
    0 < (applyAdjustments fp adj).scale ∧
      (applyAdjustments fp adj).scale = fp.scale := by
  have h : (applyAdjustments fp adj).scale = fp.scale := by
    simp [applyAdjustments, orDefault, hz]
  exact ⟨h ▸ hpos, h⟩

theorem zero_calibration_scale_clamped_witness :
    0 < (applyAdjustments ⟨0, 0, 0, 2, ⟨0, 0, 0⟩⟩ ⟨0, 0, 0, 0, 0, 0, 0⟩).scale ∧
      (applyAdjustments ⟨0, 0, 0, 2, ⟨0, 0, 0⟩⟩ ⟨0, 0, 0, 0, 0, 0, 0⟩).scale =
        (⟨0, 0, 0, 2, ⟨0, 0, 0⟩⟩ : FilterTransform).scale :=
  zero_calibration_scale_clamped ⟨0, 0, 0, 2, ⟨0, 0, 0⟩⟩ ⟨0, 0, 0, 0, 0, 0, 0⟩
    (by norm_num) rfl

/-- C8: for each of the four accessory kinds, the base transform returned by
`getFilterPosition` carries the head-pose rotation unmodified. -/
theorem filter_rotation_inherited (fd : FaceData) :
    (getFilterPosition "glasses" fd).rotation = fd.rotation ∧
      (getFilterPosition "hat" fd).rotation = fd.rotation ∧
      (getFilterPosition "beard" fd).rotation = fd.rotation ∧
      (getFilterPosition "mustache" fd).rotation = fd.rotation := by
  refine ⟨rfl, ?_, ?_, ?_⟩ <;> simp [getFilterPosition]

theorem atan2_zero_of_nonneg {y x : ℝ} (hy : y = 0) (hx : 0 ≤ x) :
    atan2 y x = 0 :=
  Complex.arg_eq_zero_iff.2 ⟨hx, hy⟩

theorem atan2_pos_left {y : ℝ} (hy : 0 < y) : atan2 y 0 = Real.pi / 2 :=
  Complex.arg_eq_pi_div_two_iff.2 ⟨rfl, hy⟩

theorem atan2_neg_left {y : ℝ} (hy : y < 0) : atan2 y 0 = -(Real.pi / 2) :=
  Complex.arg_eq_neg_pi_div_two_iff.2 ⟨rfl, hy⟩

theorem atan2_zero_right (y : ℝ) : atan2 y 0 = Real.sign y * (Real.pi / 2) := by
  rcases lt_trichotomy y 0 with h | h | h
  · rw [atan2_neg_left h, Real.sign_of_neg h]
    ring
  · subst h
    have h0 : (⟨(0 : ℝ), (0 : ℝ)⟩ : ℂ) = 0 := by
      apply Complex.ext <;> simp
    rw [show atan2 0 0 = Complex.arg 0 from congrArg Complex.arg h0,
      Complex.arg_zero, Real.sign_zero, zero_mul]
  · rw [atan2_pos_left h, Real.sign_of_pos h]
    ring

/-- C3: for the synthetic detection with eye-outer points (100,150) and
(200,150) in an unmirrored 640×480 source, `mapFaceTo3D` returns scale
`100 / 200 = 1/2` (inter-eye distance over the fixed reference constant 200)
and roll exactly 0. -/
theorem concrete_scenario_scale_roll :
    (mapFaceTo3D lmLevelEyes false 640 480).scale = 1 / 2 ∧
      (mapFaceTo3D lmLevelEyes false 640 480).rotation.z = 0 := by
  constructor
  · simp only [mapFaceTo3D, faceWidth, lmLevelEyes, getRightEyeOuter_mk,
      getLeftEyeOuter_mk]
    rw [show (200 : ℝ) - 100 = 100 by norm_num,
      abs_of_nonneg (by norm_num : (0 : ℝ) ≤ 100)]
    norm_num
  · simp only [mapFaceTo3D, rollAngleBase, lmLevelEyes, getRightEyeOuter_mk,
      getLeftEyeOuter_mk, Bool.false_eq_true, if_false]
    exact atan2_zero_of_nonneg (by norm_num) (by norm_num)

/-- C2 counterexample: with eye-outer points (100,100) and (100,200) —
identical x — the roll produced by `mapFaceTo3D` is `atan2 100 0 = π/2`,
not the neutral default 0 the claim requires. -/
theorem coincident_eye_default_counterexample :
    (mapFaceTo3D lmEyesStacked false 640 480).rotation.z ≠ 0 := by
  have h : (mapFaceTo3D lmEyesStacked false 640 480).rotation.z
      = Real.pi / 2 := by
    simp only [mapFaceTo3D, rollAngleBase, lmEyesStacked, getRightEyeOuter_mk,
      getLeftEyeOuter_mk, Bool.false_eq_true, if_false]
    rw [show (200 : ℝ) - 100 = 100 by norm_num,
      show (100 : ℝ) - 100 = 0 by norm_num]
    exact atan2_pos_left (by norm_num)
  rw [h]
  exact div_ne_zero Real.pi_ne_zero two_ne_zero

/-- C2 amended: when the two eye-outer points have identical x-coordinates,
`mapFaceTo3D` (unmirrored) produces roll `sign(Δy)·π/2` — `π/2` or `-π/2`
when the points differ in y, and 0 only when they fully coincide.  No neutral
default is substituted; the yaw path divides by the zero `faceWidth`. -/
theorem coincident_eye_roll (lm : Landmarks) (W H : ℝ)
    (hx : (getLeftEyeOuter lm).x = (getRightEyeOuter lm).x) :
    (mapFaceTo3D lm false W H).rotation.z
      = Real.sign ((getRightEyeOuter lm).y - (getLeftEyeOuter lm).y) *
          (Real.pi / 2) := by
  have h0 : (getRightEyeOuter lm).x - (getLeftEyeOuter lm).x = 0 := by
    rw [hx, sub_self]
  simp only [mapFaceTo3D, rollAngleBase, Bool.false_eq_true, if_false, h0]
  exact atan2_zero_right _

theorem coincident_eye_roll_witness :
    (mapFaceTo3D lmEyesStacked false 640 480).rotation.z
      = Real.sign ((getRightEyeOuter lmEyesStacked).y -
            (getLeftEyeOuter lmEyesStacked).y) * (Real.pi / 2) :=
  coincident_eye_roll lmEyesStacked 640 480 rfl

@[simp] theorem getLeftEyeOuter_mirror (W : ℝ) (lm : Landmarks) :
    getLeftEyeOuter (mirrorLandmarks W lm)
      = ⟨W - (getLeftEyeOuter lm).x, (getLeftEyeOuter lm).y⟩ := rfl

@[simp] theorem getRightEyeOuter_mirror (W : ℝ) (lm : Landmarks) :
    getRightEyeOuter (mirrorLandmarks W lm)
      = ⟨W - (getRightEyeOuter lm).x, (getRightEyeOuter lm).y⟩ := rfl

@[simp] theorem getNoseTip_mirror (W : ℝ) (lm : Landmarks) :
    getNoseTip (mirrorLandmarks W lm)
      = ⟨W - (getNoseTip lm).x, (getNoseTip lm).y⟩ := rfl

@[simp] theorem getChin_mirror (W : ℝ) (lm : Landmarks) :
    getChin (mirrorLandmarks W lm)
      = ⟨W - (getChin lm).x, (getChin lm).y⟩ := rfl

@[simp] theorem getForehead_mirror (W : ℝ) (lm : Landmarks) :
    getForehead (mirrorLandmarks W lm)
      = ⟨W - (getForehead lm).x, (getForehead lm).y⟩ := rfl

@[simp] theorem getLeftJaw_mirror (W : ℝ) (lm : Landmarks) :
    getLeftJaw (mirrorLandmarks W lm)
      = ⟨W - (getLeftJaw lm).x, (getLeftJaw lm).y⟩ := rfl

@[simp] theorem getRightJaw_mirror (W : ℝ) (lm : Landmarks) :
    getRightJaw (mirrorLandmarks W lm)
      = ⟨W - (getRightJaw lm).x, (getRightJaw lm).y⟩ := rfl

theorem faceWidth_mirror (W : ℝ) (lm : Landmarks) :
    faceWidth (mirrorLandmarks W lm) = faceWidth lm := by
  unfold faceWidth
  simp only [getRightEyeOuter_mirror, getLeftEyeOuter_mirror]
  rw [show W - (getRightEyeOuter lm).x - (W - (getLeftEyeOuter lm).x)
      = -((getRightEyeOuter lm).x - (getLeftEyeOuter lm).x) by ring, abs_neg]

theorem jawWidth_mirror (W : ℝ) (lm : Landmarks) :
    jawWidth (mirrorLandmarks W lm) = jawWidth lm := by
  unfold jawWidth
  simp only [getRightJaw_mirror, getLeftJaw_mirror]
  rw [show W - (getRightJaw lm).x - (W - (getLeftJaw lm).x)
      = -((getRightJaw lm).x - (getLeftJaw lm).x) by ring, abs_neg]

theorem faceHeight_mirror (W : ℝ) (lm : Landmarks) :
    faceHeight (mirrorLandmarks W lm) = faceHeight lm := rfl

theorem pitchAngle_mirror (W : ℝ) (lm : Landmarks) :
    pitchAngle (mirrorLandmarks W lm) = pitchAngle lm := rfl

theorem faceAsymmetry_mirror (W : ℝ) (lm : Landmarks) :
    faceAsymmetry (mirrorLandmarks W lm) = -faceAsymmetry lm := by
  unfold faceAsymmetry
  rw [faceWidth_mirror]
  rw [show eyeCenterX (mirrorLandmarks W lm) - (getNoseTip (mirrorLandmarks W lm)).x
      = -(eyeCenterX lm - (getNoseTip lm).x) by
    unfold eyeCenterX
    simp only [getLeftEyeOuter_mirror, getRightEyeOuter_mirror, getNoseTip_mirror]
    ring]
  rw [neg_div]

theorem jawAsymmetry_mirror (W : ℝ) (lm : Landmarks) :
    jawAsymmetry (mirrorLandmarks W lm) = -jawAsymmetry lm := by
  unfold jawAsymmetry
  rw [jawWidth_mirror]
  rw [show jawCenterX (mirrorLandmarks W lm) - (getNoseTip (mirrorLandmarks W lm)).x
      = -(jawCenterX lm - (getNoseTip lm).x) by
    unfold jawCenterX
    simp only [getLeftJaw_mirror, getRightJaw_mirror, getNoseTip_mirror]
    ring]
  rw [neg_div]

theorem yawAngleBase_mirror (W : ℝ) (lm : Landmarks) :
    yawAngleBase (mirrorLandmarks W lm) = -yawAngleBase lm := by
  unfold yawAngleBase avgAsymmetry
  rw [faceAsymmetry_mirror, jawAsymmetry_mirror]
  ring

theorem rollAngleBase_mirror (W : ℝ) (lm : Landmarks) :
    rollAngleBase (mirrorLandmarks W lm)
      = atan2 ((getRightEyeOuter lm).y - (getLeftEyeOuter lm).y)
          (-((getRightEyeOuter lm).x - (getLeftEyeOuter lm).x)) := by
  unfold rollAngleBase
  simp only [getRightEyeOuter_mirror, getLeftEyeOuter_mirror]
  rw [show W - (getRightEyeOuter lm).x - (W - (getLeftEyeOuter lm).x)
      = -((getRightEyeOuter lm).x - (getLeftEyeOuter lm).x) by ring]

/-- Negating the first `atan2` argument and then negating the result shifts
the angle by an integer multiple of π relative to the original `atan2`
(a half-turn when the arguments are not both zero, zero otherwise). -/
theorem neg_atan2_neg_eq_add_int_mul_pi (y x : ℝ) :
    ∃ k : ℤ, -atan2 y (-x) = atan2 y x + k * Real.pi := by
  by_cases h : x = 0 ∧ y = 0
  · obtain ⟨hx, hy⟩ := h
    subst hx
    subst hy
    refine ⟨0, ?_⟩
    have h00 : (⟨(0 : ℝ), (0 : ℝ)⟩ : ℂ) = 0 := by
      apply Complex.ext <;> simp
    have hn0 : (⟨-(0 : ℝ), (0 : ℝ)⟩ : ℂ) = 0 := by
      apply Complex.ext <;> simp
    unfold atan2
    rw [show Complex.arg ⟨-(0 : ℝ), (0 : ℝ)⟩ = Complex.arg 0 from congrArg _ hn0,
      show Complex.arg ⟨(0 : ℝ), (0 : ℝ)⟩ = Complex.arg 0 from congrArg _ h00,
      Complex.arg_zero]
    ring
  · have hz : (⟨x, y⟩ : ℂ) ≠ 0 := by
      intro hc
      exact h ⟨by rw [← Complex.zero_re, ← hc], by rw [← Complex.zero_im, ← hc]⟩
    have hzc : (starRingEnd ℂ) (⟨x, y⟩ : ℂ) ≠ 0 := by
      rw [ne_eq, starRingEnd_apply, star_eq_zero]
      exact hz
    have hw : (⟨-x, y⟩ : ℂ) = -((starRingEnd ℂ) (⟨x, y⟩ : ℂ)) := by
      apply Complex.ext <;> simp
    have h1 : ((Complex.arg (⟨-x, y⟩ : ℂ) : ℝ) : Real.Angle)
        = ((Real.pi - Complex.arg (⟨x, y⟩ : ℂ) : ℝ) : Real.Angle) := by
      rw [hw, Complex.arg_neg_coe_angle hzc, Complex.arg_conj_coe_angle,
        Real.Angle.coe_sub]
      abel
    rw [Real.Angle.angle_eq_iff_two_pi_dvd_sub] at h1
    obtain ⟨k, hk⟩ := h1
    refine ⟨-1 - 2 * k, ?_⟩
    unfold atan2
    push_cast
    linarith [hk]

theorem faceAsymmetry_lmYawed : faceAsymmetry lmYawed = 1 / 10 := by
  have hfw : faceWidth lmYawed = 100 := by
    unfold faceWidth
    simp only [lmYawed, getRightEyeOuter_mk, getLeftEyeOuter_mk]
    rw [show (200 : ℝ) - 100 = 100 by norm_num,
      abs_of_nonneg (by norm_num : (0 : ℝ) ≤ 100)]
  unfold faceAsymmetry eyeCenterX
  rw [hfw]
  simp only [lmYawed, getRightEyeOuter_mk, getLeftEyeOuter_mk, getNoseTip_mk]
  norm_num

theorem jawAsymmetry_lmYawed : jawAsymmetry lmYawed = 1 / 8 := by
  have hjw : jawWidth lmYawed = 160 := by
    unfold jawWidth
    simp only [lmYawed, getRightJaw_mk, getLeftJaw_mk]
    rw [show (240 : ℝ) - 80 = 160 by norm_num,
      abs_of_nonneg (by norm_num : (0 : ℝ) ≤ 160)]
  unfold jawAsymmetry jawCenterX
  rw [hjw]
  simp only [lmYawed, getRightJaw_mk, getLeftJaw_mk, getNoseTip_mk]
  norm_num

theorem yawAngleBase_lmYawed_pos : 0 < yawAngleBase lmYawed := by
  unfold yawAngleBase avgAsymmetry
  rw [faceAsymmetry_lmYawed, jawAsymmetry_lmYawed]
  have hpi := Real.pi_pos
  nlinarith

/-- C1 counterexample: on the landmark set `lmYawed` (640×480 source) the
mirrored run's yaw equals the unmirrored run's yaw, which is strictly
positive, so it is not the negation the claim requires. -/
theorem mirroring_claim_counterexample :
    ¬ ((mapFaceTo3D (mirrorLandmarks 640 lmYawed) true 640 480).rotation.y
        = -(mapFaceTo3D lmYawed false 640 480).rotation.y) := by
  intro hEq
  have hmir : (mapFaceTo3D (mirrorLandmarks 640 lmYawed) true 640 480).rotation.y
      = yawAngleBase lmYawed := by
    simp only [mapFaceTo3D, if_true, yawAngleBase_mirror, neg_neg]
  have hbase : (mapFaceTo3D lmYawed false 640 480).rotation.y
      = yawAngleBase lmYawed := by
    simp only [mapFaceTo3D, Bool.false_eq_true, if_false]
  rw [hmir, hbase] at hEq
  have hpos := yawAngleBase_lmYawed_pos
  linarith

/-- C1 amended: for every landmark set and nonzero source width, mirroring
the landmarks and toggling `isMirrored` negates `centerNormalized.x` and
preserves `scale` and pitch, while yaw is preserved (not negated) and roll
shifts by an integer multiple of π (not negated). -/
theorem mirroring_amended (lm : Landmarks) (W H : ℝ) (hW : W ≠ 0) :
    MirrorSymmetryHolds lm W H := by
  unfold MirrorSymmetryHolds
  refine ⟨?_, ?_, ?_, ?_, ?_⟩
  · simp only [mapFaceTo3D, getNoseTip_mirror]
    field_simp
    ring
  · simp only [mapFaceTo3D, faceWidth_mirror]
  · simp only [mapFaceTo3D, pitchAngle_mirror]
  · simp only [mapFaceTo3D, if_true, Bool.false_eq_true, if_false,
      yawAngleBase_mirror, neg_neg]
  · simp only [mapFaceTo3D, if_true, Bool.false_eq_true, if_false,
      rollAngleBase_mirror]
    exact neg_atan2_neg_eq_add_int_mul_pi _ _

theorem mirroring_amended_witness : MirrorSymmetryHolds lmLevelEyes 640 480 :=
  mirroring_amended lmLevelEyes 640 480 (by norm_num)

theorem faceWidth_lmWideAsym : faceWidth lmWideAsym = 10 := by
  unfold faceWidth
  simp only [lmWideAsym, getRightEyeOuter_mk, getLeftEyeOuter_mk]
  rw [show (110 : ℝ) - 100 = 10 by norm_num,
    abs_of_nonneg (by norm_num : (0 : ℝ) ≤ 10)]

theorem jawWidth_lmWideAsym : jawWidth lmWideAsym = 200 := by
  unfold jawWidth
  simp only [lmWideAsym, getRightJaw_mk, getLeftJaw_mk]
  rw [show (200 : ℝ) - 0 = 200 by norm_num,
    abs_of_nonneg (by norm_num : (0 : ℝ) ≤ 200)]

theorem faceAsymmetry_lmWideAsym : faceAsymmetry lmWideAsym = 21 / 2 := by
  unfold faceAsymmetry eyeCenterX
  rw [faceWidth_lmWideAsym]
  simp only [lmWideAsym, getRightEyeOuter_mk, getLeftEyeOuter_mk, getNoseTip_mk]
  norm_num

theorem jawAsymmetry_lmWideAsym : jawAsymmetry lmWideAsym = 1 / 2 := by
  unfold jawAsymmetry jawCenterX
  rw [jawWidth_lmWideAsym]
  simp only [lmWideAsym, getRightJaw_mk, getLeftJaw_mk, getNoseTip_mk]
  norm_num

/-- C9 counterexample: `lmWideAsym` has nonzero inter-eye distance and jaw
width, yet its yaw estimate `(21/2 + 1/2)/2 · π · 0.3 = 1.65π` exceeds the
claimed `0.3π` bound — the code applies no clamp. -/
theorem yaw_bound_counterexample :
    faceWidth lmWideAsym ≠ 0 ∧ jawWidth lmWideAsym ≠ 0 ∧
      ¬ (|(mapFaceTo3D lmWideAsym false 640 480).rotation.y| ≤ 0.3 * Real.pi) := by
  refine ⟨by rw [faceWidth_lmWideAsym]; norm_num,
    by rw [jawWidth_lmWideAsym]; norm_num, ?_⟩
  have hy : (mapFaceTo3D lmWideAsym false 640 480).rotation.y
      = (21 / 2 + 1 / 2) / 2 * Real.pi * 0.3 := by
    simp only [mapFaceTo3D, Bool.false_eq_true, if_false, yawAngleBase,
      avgAsymmetry, faceAsymmetry_lmWideAsym, jawAsymmetry_lmWideAsym]
  rw [hy, abs_of_pos (by positivity)]
  intro hle
  nlinarith [Real.pi_pos]

/-- C9 amended: the yaw produced by `mapFaceTo3D` is
`avgAsymmetry · π · 0.3` with no clamping, so the `|yaw| ≤ 0.3π` bound holds
exactly when the average asymmetry has magnitude at most 1 — in particular
whenever both asymmetry ratios have magnitude at most 1. -/
theorem yaw_bounded_amended (lm : Landmarks) (mir : Bool) (W H : ℝ)
    (hfa : |faceAsymmetry lm| ≤ 1) (hja : |jawAsymmetry lm| ≤ 1) :
    |(mapFaceTo3D lm mir W H).rotation.y| ≤ 0.3 * Real.pi := by
  have havg : |avgAsymmetry lm| ≤ 1 := by
    unfold avgAsymmetry
    rw [abs_div]
    rw [show |(2 : ℝ)| = 2 from abs_of_pos (by norm_num)]
    have := abs_add (faceAsymmetry lm) (jawAsymmetry lm)
    linarith
  have hbase : |yawAngleBase lm| ≤ 0.3 * Real.pi := by
    unfold yawAngleBase
    rw [abs_mul, abs_mul, abs_of_pos Real.pi_pos,
      show |(0.3 : ℝ)| = 0.3 from abs_of_pos (by norm_num)]
    nlinarith [Real.pi_pos]
  cases mir with
  | false =>
    simpa only [mapFaceTo3D, Bool.false_eq_true, if_false] using hbase
  | true =>
    simpa only [mapFaceTo3D, if_true, abs_neg] using hbase

theorem yaw_bounded_amended_witness :
    |(mapFaceTo3D lmYawed false 640 480).rotation.y| ≤ 0.3 * Real.pi :=
  yaw_bounded_amended lmYawed false 640 480
    (by rw [faceAsymmetry_lmYawed, abs_of_nonneg (by norm_num : (0 : ℝ) ≤ 1 / 10)]; norm_num)
    (by rw [jawAsymmetry_lmYawed, abs_of_nonneg (by norm_num : (0 : ℝ) ≤ 1 / 8)]; norm_num)

@[simp] theorem hideGroup_visible (g : GroupState) :
    (hideGroup g).visible = false := rfl

theorem foldl_tickStep_filter (sel : List String) (adj : String → Adjustment)
    (mir : Bool) (vw vh t : ℝ) :
    ∀ (dets : List Detection) (init : List (String × GroupState)),
      dets.foldl (tickStep sel adj mir vw vh t) init
        = (dets.filter fun d => decide ((0.7 : ℝ) ≤ d.score)).foldl
            (tickStep sel adj mir vw vh t) init := by
  intro dets
  induction dets with
  | nil => intro init; rfl
  | cons d l ih =>
    intro init
    by_cases h : d.score < 0.7
    · have hd : decide ((0.7 : ℝ) ≤ d.score) = false :=
        decide_eq_false (not_le.2 h)
      have hstep : tickStep sel adj mir vw vh t init d = init := by
        unfold tickStep
        rw [if_pos h]
      simp only [List.foldl_cons, List.filter_cons, hd, Bool.false_eq_true,
        if_false, hstep]
      exact ih init
    · have hd : decide ((0.7 : ℝ) ≤ d.score) = true :=
        decide_eq_true (not_lt.1 h)
      simp only [List.foldl_cons, List.filter_cons, hd, if_true]
      exact ih _

/-- C6: low-confidence detections are inert in the render loop — a tick over
any detection list equals the tick over only its detections with score at
least 0.7, and when every detection scores below 0.7 every filter group ends
the tick invisible, whatever the selected filters are. -/
theorem visibility_gating (sel : List String) (adj : String → Adjustment)
    (dets : List Detection) (mir : Bool) (vw vh t : ℝ)
    (groups : List (String × GroupState)) :
    animateTick sel adj dets mir vw vh t groups
        = animateTick sel adj (dets.filter fun d => decide ((0.7 : ℝ) ≤ d.score))
            mir vw vh t groups
      ∧ ((∀ d ∈ dets, d.score < 0.7) →
          (animateTick sel adj dets mir vw vh t groups).all
              (fun p => !p.2.visible) = true) := by
  constructor
  · unfold animateTick
    exact foldl_tickStep_filter sel adj mir vw vh t dets _
  · intro hall
    unfold animateTick
    rw [foldl_tickStep_filter sel adj mir vw vh t dets _]
    have hnil : (dets.filter fun d => decide ((0.7 : ℝ) ≤ d.score)) = [] := by
      rw [List.filter_eq_nil_iff]
      intro d hd
      simp only [decide_eq_true_eq, not_le]
      exact hall d hd
    rw [hnil]
    simp only [List.foldl_nil, List.all_eq_true, List.mem_map]
    rintro p ⟨q, _, rfl⟩
    simp

theorem visibility_gating_witness :
    (animateTick ["glasses"] (fun _ => resetAdjustment) [dLowScore] false
        640 480 0 [("glasses", gGlasses)]).all (fun p => !p.2.visible) = true :=
  (visibility_gating ["glasses"] (fun _ => resetAdjustment) [dLowScore] false
      640 480 0 [("glasses", gGlasses)]).2 (by
    intro d hd
    simp only [List.mem_singleton] at hd
    subst hd
    show (1 : ℝ) / 2 < 0.7
    norm_num)

theorem mem_foldl_addFilterKey (x : String) :
    ∀ (l acc : List String),
      x ∈ l.foldl addFilterKey acc ↔
        x ∈ acc ∨ (x ∈ l ∧ x ∈ accessoryKinds) := by
  intro l
  induction l with
  | nil => intro acc; simp
  | cons a l ih =>
    intro acc
    rw [List.foldl_cons, ih]
    unfold addFilterKey
    by_cases h1 : a ∈ acc
    · simp only [if_pos h1, List.mem_cons]
      by_cases hx : x = a
      · subst hx; tauto
      · tauto
    · simp only [if_neg h1]
      by_cases h2 : a ∈ accessoryKinds
      · simp only [if_pos h2, List.mem_append, List.mem_singleton,
          List.mem_cons]
        by_cases hx : x = a
        · subst hx; tauto
        · tauto
      · simp only [if_neg h2, List.mem_cons]
        by_cases hx : x = a
        · subst hx; tauto
        · tauto

/-- C7: after the filter-management effect runs, the set of accessory mesh
groups (the keys of the kind-to-group map, equally the accessory groups in
the scene) is exactly the set of selected filter ids — deselected kinds are
absent, not merely invisible. -/
theorem deselection_cleanup (selected cur : List String)
    (hsel : ∀ fid ∈ selected, fid ∈ accessoryKinds) :
    (syncFilters selected cur).toFinset = selected.toFinset := by
  apply Finset.ext
  intro x
  simp only [List.mem_toFinset]
  unfold syncFilters
  rw [mem_foldl_addFilterKey]
  simp only [List.mem_filter, decide_eq_true_eq]
  constructor
  · rintro (⟨_, hs⟩ | ⟨hs, _⟩) <;> exact hs
  · intro hs
    exact Or.inr ⟨hs, hsel x hs⟩

theorem deselection_cleanup_witness :
    (syncFilters ["glasses", "hat"] ["beard", "glasses"]).toFinset
      = (["glasses", "hat"] : List String).toFinset :=
  deselection_cleanup ["glasses", "hat"] ["beard", "glasses"] (by decide)

/-- C10: every published detection list has at most `MAX_FACES = 1` entries,
and every entry scores strictly above 0.7 — never exactly 0.7 — so the
render loop's `score < 0.7` rejection can never fire on a published
detection. -/
theorem detection_publish_invariant (dets : List Detection) :
    (validDetections dets).length ≤ MAX_FACES ∧
      ∀ d ∈ validDetections dets,
        MIN_DETECTION_CONFIDENCE < d.score ∧ d.score ≠ 0.7 ∧
          ¬ (d.score < 0.7) := by
  constructor
  · unfold validDetections
    rw [List.length_take]
    exact min_le_left _ _
  · intro d hd
    unfold validDetections at hd
    have hd2 := List.take_subset _ _ hd
    rw [List.mem_filter] at hd2
    have hscore : MIN_DETECTION_CONFIDENCE < d.score :=
      of_decide_eq_true hd2.2
    have hscore7 : (0.7 : ℝ) < d.score := hscore
    refine ⟨hscore, ?_, not_lt.2 hscore7.le⟩
    intro hEq
    rw [hEq] at hscore7
    exact lt_irrefl _ hscore7

theorem detection_publish_invariant_witness :
    MIN_DETECTION_CONFIDENCE < dHigh.score ∧ dHigh.score ≠ 0.7 ∧
      ¬ (dHigh.score < 0.7) :=
  (detection_publish_invariant [dHigh]).2 dHigh (by
    unfold validDetections
    simp only [List.filter_cons, List.filter_nil]
    rw [show decide (MIN_DETECTION_CONFIDENCE < dHigh.score) = true from
      decide_eq_true (by show (0.7 : ℝ) < 9 / 10; norm_num)]
    simp [MAX_FACES])
